import Mathlib

/-!
Verification of the BankSecure fraud-detection engine
(`app_test.py`, class `AdvancedFraudDetectionEngine` plus the
module-level decision logic of the Authentication Portal tab).

Shallow embedding conventions:

* Scores are natural numbers (every rule weight in `risk_weights` is a
  positive integer and risk only ever increases by `+=`).
* Python floats that feed comparisons against fixed decimal thresholds
  (trust scores, confidence values, random draws, behavioral speeds)
  are modelled as rationals; the haversine distance function, which is
  genuinely transcendental, is modelled over the reals.
* Alerts are Python strings of the form "CRITICAL: ...", "WARNING: ...",
  "INFO: ...".  We model an alert as its severity together with a code
  identifying the append site; this is faithful because the engine only
  ever inspects alerts via the substring test `"CRITICAL" in alert`
  (lines 534 and 1095), every CRITICAL message starts with that word and
  no WARNING/INFO message produced anywhere in the engine contains it.
* Database reads and `np.random` draws are the inputs of the pass: they
  are passed explicitly (`IntelState` for the stored-intelligence reads,
  clock and attempt history; `RandomDraws` for the random draws).  The
  writes performed by `_update_device_intelligence` and
  `_update_sim_intelligence` happen after the corresponding reads and
  cannot affect the pass being scored, so they are not modelled.
* The geospatial layer of the source computes
  `distance = self._calculate_distance(...)` and then bands it.  The
  banding (`geo_distance_band`) is defined generically over a linear
  ordered field so that the engine can run it on rationals while the
  claims about the real-valued haversine distance use the same
  definition at type ℝ; the engine receives the distance value as an
  explicit argument.
-/

namespace BankSecure

/-- Alert severity, the leading word of every alert string. -/
inductive Severity where
  | CRITICAL
  | WARNING
  | INFO
  deriving DecidableEq

/-- One code per `alerts.append` site of the engine.  The two impossible
travel branches (`> 10000` and `> 5000`) append the identical message
`f"CRITICAL: Impossible travel {distance:.0f}km"`, hence share a code. -/
inductive AlertCode where
  | emulatorDetected
  | rootedDevice
  | suspiciousHistory
  | untrustedDevice
  | knownDeviceChange
  | unknownDevice
  | simCloneDetected
  | dualSimUsage
  | multipleSimSwaps
  | previousSimSwap
  | simCardChanged
  | impossibleTravel
  | highSpeedTravel
  | newLocation
  | highRiskArea
  | botBehavior
  | severeBehavioralAnomaly
  | moderateBehavioralChange
  | minorBehavioralVariation
  | unusualLoginTime
  | rapidAttempts
  | vpnProxy
  | knownFraudPattern
  | similarFraudPattern
  deriving DecidableEq

/-- An alert string, abstracted to severity plus append-site code. -/
structure Alert where
  severity : Severity
  code : AlertCode
  deriving DecidableEq

/-- Enrolled user row (the fields of the `users` table that the engine
reads: `user_id`, `device_id`, `sim_id`, `lat`, `lon`,
`keystroke_speed`, `mouse_speed`). -/
structure UserProfile where
  user_id : String
  device_id : String
  sim_id : String
  lat : ℚ
  lon : ℚ
  keystroke_speed : ℚ
  mouse_speed : ℚ
  deriving DecidableEq

/-- The `login_data` dict built by the Authentication Portal tab. -/
structure LoginAttempt where
  user_id : String
  device_id : String
  sim_id : String
  lat : ℚ
  lon : ℚ
  keystroke_speed : ℚ
  mouse_speed : ℚ
  deriving DecidableEq

/-- Row of the `device_intelligence` table as read by
`_get_device_intelligence` (the fields the engine consumes). -/
structure DeviceIntel where
  trust_score : ℚ
  is_emulator : Bool
  is_rooted : Bool
  suspicious_activity_count : ℤ
  deriving DecidableEq

/-- Row of the `sim_intelligence` table as read by
`_get_sim_intelligence` (the fields the engine consumes). -/
structure SimIntel where
  swap_frequency : ℤ
  clone_detection_score : ℚ
  dual_sim_detected : Bool
  deriving DecidableEq

/-- Outcome of the `fraud_patterns` query performed by
`_check_fraud_patterns`:
* `dbError` — the cursor raised, landing in the `except` clause;
* `noRow`  — no matching row, or `MAX(confidence_score)` NULL;
* `row c`  — a matching row whose maximal confidence is `c`. -/
inductive FraudQueryResult where
  | dbError
  | noRow
  | row (c : ℚ)
  deriving DecidableEq

/-- Everything the pass reads from the database and the clock:
`_get_device_intelligence(login.device_id)`,
`_get_sim_intelligence(user.user_id)`, the `fraud_patterns` query,
`len(_get_recent_attempts(user_id, 10))` and `datetime.now().hour`. -/
structure IntelState where
  device_intel : Option DeviceIntel
  sim_intel : Option SimIntel
  fraud_query : FraudQueryResult
  recent_blocked_count : ℕ
  hour : ℕ
  deriving DecidableEq

/-- The `np.random` draws consumed during one pass, in draw order:
`_detect_sim_cloning` (`uniform(0.1, 0.9)`), `_detect_dual_sim`
(`random()`), `_assess_location_risk` (`uniform(0.0, 1.0)`),
`_analyze_network_intelligence` (`random()`), and the
`uniform(0.1, 0.4)` fallback of `_check_fraud_patterns`. -/
structure RandomDraws where
  clone_draw : ℚ
  dual_sim_draw : ℚ
  location_risk_draw : ℚ
  vpn_draw : ℚ
  fraud_fallback_draw : ℚ
  deriving DecidableEq

/-- The per-layer score dict `risk_breakdown`. -/
structure RiskBreakdown where
  device_analysis : ℕ
  sim_analysis : ℕ
  geospatial_analysis : ℕ
  behavioral_analysis : ℕ
  temporal_analysis : ℕ
  network_analysis : ℕ
  pattern_analysis : ℕ
  deriving DecidableEq

/-- Sum of the values of the breakdown dict. -/
def RiskBreakdown.total (b : RiskBreakdown) : ℕ :=
  b.device_analysis + b.sim_analysis + b.geospatial_analysis +
    b.behavioral_analysis + b.temporal_analysis + b.network_analysis +
    b.pattern_analysis

/-- The tuple returned by `comprehensive_risk_analysis`
(`min(total_risk, 100)`, alerts, risk_breakdown, ml_confidence);
the response-time element is wall-clock presentation data and is not
modelled. -/
structure Decision where
  totalScore : ℕ
  alerts : List Alert
  breakdown : RiskBreakdown
  ml_confidence : ℚ
  deriving DecidableEq

/-- Access decision of the module-level portal logic. -/
inductive Status where
  | APPROVED
  | CHALLENGE
  | BLOCKED
  deriving DecidableEq

/-- `_analyze_device_intelligence` (lines 368..397): fires only when the
attempt device differs from the enrolled one; with intelligence present
the `if/elif` chain picks exactly one of emulator 95, rooted 65,
suspicious-history 60, untrusted 60, known-change 35; with no
intelligence: unknown device 80. -/
def analyze_device_intelligence (user : UserProfile) (login : LoginAttempt)
    (intel : Option DeviceIntel) : ℕ × List Alert :=
  if login.device_id ≠ user.device_id then
    match intel with
    | some d =>
      if d.is_emulator then (95, [⟨.CRITICAL, .emulatorDetected⟩])
      else if d.is_rooted then (65, [⟨.WARNING, .rootedDevice⟩])
      else if d.suspicious_activity_count > 3 then
        (60, [⟨.WARNING, .suspiciousHistory⟩])
      else if d.trust_score < 30 then (60, [⟨.WARNING, .untrustedDevice⟩])
      else (35, [⟨.INFO, .knownDeviceChange⟩])
    | none => (80, [⟨.CRITICAL, .unknownDevice⟩])
  else (0, [])

/-- `_analyze_sim_intelligence` (lines 399..430).  `_detect_sim_cloning`
returns the `uniform(0.1, 0.9)` draw when the SIM changed (inside this
branch it always has), `_detect_dual_sim` is `random() < 0.15`.  Note
the swap-frequency chain: `swap_freq > 2` gives 90 CRITICAL,
`swap_freq > 0` gives 65 WARNING, and a present record with
`swap_freq <= 0` appends nothing; an absent record gives 65 WARNING. -/
def analyze_sim_intelligence (user : UserProfile) (login : LoginAttempt)
    (intel : Option SimIntel) (rd : RandomDraws) : ℕ × List Alert :=
  if login.sim_id ≠ user.sim_id then
    let clone : ℕ × List Alert :=
      if rd.clone_draw > 0.8 then (95, [⟨.CRITICAL, .simCloneDetected⟩])
      else (0, [])
    let dual : ℕ × List Alert :=
      if rd.dual_sim_draw < 0.15 then (70, [⟨.WARNING, .dualSimUsage⟩])
      else (0, [])
    let swap : ℕ × List Alert :=
      match intel with
      | some s =>
        if s.swap_frequency > 2 then (90, [⟨.CRITICAL, .multipleSimSwaps⟩])
        else if s.swap_frequency > 0 then (65, [⟨.WARNING, .previousSimSwap⟩])
        else (0, [])
      | none => (65, [⟨.WARNING, .simCardChanged⟩])
    (clone.1 + dual.1 + swap.1, clone.2 ++ dual.2 ++ swap.2)
  else (0, [])

/-- Distance banding of `_analyze_geospatial_intelligence`
(lines 437..450): `> 10000` and `> 5000` both add
`risk_weights[impossible_travel] = 85` with the same CRITICAL message,
`> 2000` adds `risk_weights[suspicious_velocity] = 55` WARNING,
`> 500` adds a literal 30 INFO, and at most 500 km adds nothing.
Generic over a linear ordered field so it serves both the rational
engine state and the real-valued haversine distance. -/
def geo_distance_band {α : Type} [LinearOrderedField α] (distance : α) :
    ℕ × List Alert :=
  if distance > 10000 then (85, [⟨.CRITICAL, .impossibleTravel⟩])
  else if distance > 5000 then (85, [⟨.CRITICAL, .impossibleTravel⟩])
  else if distance > 2000 then (55, [⟨.WARNING, .highSpeedTravel⟩])
  else if distance > 500 then (30, [⟨.INFO, .newLocation⟩])
  else (0, [])

/-- `_analyze_geospatial_intelligence` (lines 432..457): the distance
band plus the location-risk check `_assess_location_risk(...) > 0.7`
(the assessment is `np.random.uniform(0.0, 1.0)`, passed here as the
draw). The haversine distance the source computes on its first line is
received as the `distance` argument. -/
def analyze_geospatial_intelligence (distance : ℚ)
    (location_risk_draw : ℚ) : ℕ × List Alert :=
  let band := geo_distance_band distance
  let locRisk : ℕ × List Alert :=
    if location_risk_draw > 0.7 then (60, [⟨.WARNING, .highRiskArea⟩])
    else (0, [])
  (band.1 + locRisk.1, band.2 ++ locRisk.2)

/-- `_detect_bot_behavior`: keystroke exactly 100 and mouse exactly 150. -/
def detect_bot_behavior (login : LoginAttempt) : Bool :=
  login.keystroke_speed == 100 && login.mouse_speed == 150

/-- `_analyze_behavioral_biometrics` (lines 461..486): bot detection
returns early with 90 CRITICAL; otherwise the summed absolute speed
deviations are banded at 150/100/50. -/
def analyze_behavioral_biometrics (user : UserProfile)
    (login : LoginAttempt) : ℕ × List Alert :=
  if detect_bot_behavior login then (90, [⟨.CRITICAL, .botBehavior⟩])
  else
    let total_diff :=
      |user.keystroke_speed - login.keystroke_speed| +
        |user.mouse_speed - login.mouse_speed|
    if total_diff > 150 then (70, [⟨.CRITICAL, .severeBehavioralAnomaly⟩])
    else if total_diff > 100 then
      (40, [⟨.WARNING, .moderateBehavioralChange⟩])
    else if total_diff > 50 then
      (20, [⟨.INFO, .minorBehavioralVariation⟩])
    else (0, [])

/-- `_analyze_temporal_patterns` (lines 488..503): odd hour and
rapid-attempt checks, on the wall-clock hour and the number of recent
BLOCKED/CHALLENGE attempts. -/
def analyze_temporal_patterns (hour : ℕ) (recent_blocked_count : ℕ) :
    ℕ × List Alert :=
  let timing : ℕ × List Alert :=
    if hour < 5 ∨ hour > 23 then (45, [⟨.WARNING, .unusualLoginTime⟩])
    else (0, [])
  let rapid : ℕ × List Alert :=
    if recent_blocked_count > 5 then (50, [⟨.WARNING, .rapidAttempts⟩])
    else (0, [])
  (timing.1 + rapid.1, timing.2 ++ rapid.2)

/-- `_analyze_network_intelligence` (lines 505..513): fires on
`np.random.random() < 0.12`. -/
def analyze_network_intelligence (vpn_draw : ℚ) : ℕ × List Alert :=
  if vpn_draw < 0.12 then (40, [⟨.WARNING, .vpnProxy⟩])
  else (0, [])

/-- `_check_fraud_patterns` (lines 576..595).  When the query yields a
non-NULL row the source executes `return float(result)` where `result`
is the fetched tuple; `float` of a tuple raises `TypeError`, which the
enclosing bare `except` catches, returning the 0.0 "safe default" — so
the row's confidence value never escapes.  With no row it returns the
`uniform(0.1, 0.4)` draw, and a database error also returns 0.0. -/
def check_fraud_patterns (q : FraudQueryResult)
    (fraud_fallback_draw : ℚ) : ℚ :=
  match q with
  | .dbError => 0
  | .noRow => fraud_fallback_draw
  | .row _ => 0

/-- `_analyze_fraud_patterns` (lines 515..531): bands the value returned
by `_check_fraud_patterns` at 0.8 (75, `phishing_indicators`, CRITICAL)
and 0.6 (literal 50, WARNING).  The `is not None` guard of the source is
always true since `_check_fraud_patterns` returns a float on every
path. -/
def analyze_fraud_patterns (q : FraudQueryResult)
    (fraud_fallback_draw : ℚ) : ℕ × List Alert :=
  let c := check_fraud_patterns q fraud_fallback_draw
  if c > 0.8 then (75, [⟨.CRITICAL, .knownFraudPattern⟩])
  else if c > 0.6 then (50, [⟨.WARNING, .similarFraudPattern⟩])
  else (0, [])

/-- `_calculate_ml_confidence` (lines 533..544), with the substring
counts replaced by severity counts (see the header note). -/
def calculate_ml_confidence (alerts : List Alert) : ℚ :=
  let critical_count := (alerts.filter (fun a => a.severity == .CRITICAL)).length
  let warning_count := (alerts.filter (fun a => a.severity == .WARNING)).length
  if critical_count ≥ 2 then 0.95
  else if critical_count ≥ 1 then 0.88
  else if warning_count ≥ 2 then 0.82
  else 0.92

/-- `comprehensive_risk_analysis` (lines 311..366): runs the seven
layers, sums their scores, concatenates their alerts in layer order,
records the per-layer breakdown, and caps the total at 100. -/
def comprehensive_risk_analysis (user : UserProfile) (login : LoginAttempt)
    (st : IntelState) (rd : RandomDraws) (distance : ℚ) : Decision :=
  let d1 := analyze_device_intelligence user login st.device_intel
  let d2 := analyze_sim_intelligence user login st.sim_intel rd
  let d3 := analyze_geospatial_intelligence distance rd.location_risk_draw
  let d4 := analyze_behavioral_biometrics user login
  let d5 := analyze_temporal_patterns st.hour st.recent_blocked_count
  let d6 := analyze_network_intelligence rd.vpn_draw
  let d7 := analyze_fraud_patterns st.fraud_query rd.fraud_fallback_draw
  let total := d1.1 + d2.1 + d3.1 + d4.1 + d5.1 + d6.1 + d7.1
  let alerts := d1.2 ++ d2.2 ++ d3.2 ++ d4.2 ++ d5.2 ++ d6.2 ++ d7.2
  { totalScore := min total 100
    alerts := alerts
    breakdown := ⟨d1.1, d2.1, d3.1, d4.1, d5.1, d6.1, d7.1⟩
    ml_confidence := calculate_ml_confidence alerts }

/-- `sum(1 for alert in alerts if "CRITICAL" in alert)` of line 1095,
by severity (see the header note). -/
def critical_count (alerts : List Alert) : ℕ :=
  (alerts.filter (fun a => a.severity == .CRITICAL)).length

/-- The module-level decision logic (lines 1097..1105). -/
def decide_status (risk_score : ℕ) (critical_alerts : ℕ) : Status :=
  if risk_score ≥ 80 ∨ critical_alerts ≥ 2 then .BLOCKED
  else if risk_score ≥ 50 ∨ critical_alerts ≥ 1 then .CHALLENGE
  else .APPROVED

/-- `math.radians`: degrees to radians. -/
noncomputable def radians (x : ℝ) : ℝ := x * (Real.pi / 180)

/-- `math.atan2`, in ideal-real semantics (signed zeros are not
modelled; the haversine call sites only ever pass a nonnegative first
argument). -/
noncomputable def atan2 (y x : ℝ) : ℝ :=
  if 0 < x then Real.arctan (y / x)
  else if x < 0 ∧ 0 ≤ y then Real.arctan (y / x) + Real.pi
  else if x < 0 then Real.arctan (y / x) - Real.pi
  else if 0 < y then Real.pi / 2
  else if y < 0 then -(Real.pi / 2)
  else 0

/-- The local `a` of `_calculate_distance` (line 551):
`sin(dlat/2)**2 + cos(radians(lat1)) * cos(radians(lat2)) * sin(dlon/2)**2`. -/
noncomputable def haversine_a (lat1 lon1 lat2 lon2 : ℝ) : ℝ :=
  Real.sin (radians (lat2 - lat1) / 2) ^ 2 +
    Real.cos (radians lat1) * Real.cos (radians lat2) *
      Real.sin (radians (lon2 - lon1) / 2) ^ 2

/-- `_calculate_distance` (lines 547..554): haversine distance with
Earth radius `R = 6371`, `c = 2 * atan2(sqrt(a), sqrt(1 - a))`. -/
noncomputable def calculate_distance (lat1 lon1 lat2 lon2 : ℝ) : ℝ :=
  6371 * (2 * atan2 (Real.sqrt (haversine_a lat1 lon1 lat2 lon2))
    (Real.sqrt (1 - haversine_a lat1 lon1 lat2 lon2)))

/-! Helper lemmas about the haversine model. -/

lemma arctan_nonneg_of_nonneg {t : ℝ} (h : 0 ≤ t) : 0 ≤ Real.arctan t := by
  have := Real.arctan_strictMono.monotone h
  rwa [Real.arctan_zero] at this

lemma atan2_nonneg {y x : ℝ} (hy : 0 ≤ y) : 0 ≤ atan2 y x := by
  unfold atan2
  split_ifs with h1 h2 h3 h4 h5
  · exact arctan_nonneg_of_nonneg (div_nonneg hy h1.le)
  · have h := Real.neg_pi_div_two_lt_arctan (y / x)
    have hπ := Real.pi_pos
    linarith
  · exact absurd ⟨h3, hy⟩ h2
  · have hπ := Real.pi_pos
    linarith
  · linarith
  · exact le_refl 0

lemma atan2_zero_one : atan2 0 1 = 0 := by
  unfold atan2
  rw [if_pos one_pos]
  norm_num [Real.arctan_zero]

lemma sin_sq_half_neg (x y : ℝ) :
    Real.sin (radians (x - y) / 2) ^ 2 = Real.sin (radians (y - x) / 2) ^ 2 := by
  have h : radians (x - y) / 2 = -(radians (y - x) / 2) := by
    unfold radians; ring
  rw [h, Real.sin_neg, neg_sq]

lemma haversine_a_symm (lat1 lon1 lat2 lon2 : ℝ) :
    haversine_a lat1 lon1 lat2 lon2 = haversine_a lat2 lon2 lat1 lon1 := by
  have h1 := sin_sq_half_neg lat1 lat2
  have h2 := sin_sq_half_neg lon1 lon2
  unfold haversine_a
  rw [h1, h2]
  ring

lemma haversine_a_self (lat lon : ℝ) : haversine_a lat lon lat lon = 0 := by
  unfold haversine_a radians
  simp

/-- Claim C9: the distance function of `_calculate_distance` is
symmetric in its two coordinate pairs, vanishes when both coincide, and
is nonnegative on all inputs; by definition it is the haversine formula
with Earth radius 6371 km. -/
theorem C9_distance_properties :
    (∀ lat1 lon1 lat2 lon2 : ℝ,
      calculate_distance lat1 lon1 lat2 lon2 =
        calculate_distance lat2 lon2 lat1 lon1) ∧
    (∀ lat lon : ℝ, calculate_distance lat lon lat lon = 0) ∧
    (∀ lat1 lon1 lat2 lon2 : ℝ, 0 ≤ calculate_distance lat1 lon1 lat2 lon2) := by
  refine ⟨?_, ?_, ?_⟩
  · intro lat1 lon1 lat2 lon2
    unfold calculate_distance
    rw [haversine_a_symm]
  · intro lat lon
    unfold calculate_distance
    rw [haversine_a_self]
    norm_num [atan2_zero_one]
  · intro lat1 lon1 lat2 lon2
    unfold calculate_distance
    have h := atan2_nonneg (x := Real.sqrt (1 - haversine_a lat1 lon1 lat2 lon2))
      (Real.sqrt_nonneg (haversine_a lat1 lon1 lat2 lon2))
    positivity

/-- The haversine distance from (0, 0) to (30, 0): thirty degrees of
latitude along a meridian, i.e. 6371 * π / 6 km, a value strictly
between 2000 and 5000. -/
lemma calculate_distance_thirty_degrees :
    calculate_distance 0 0 30 0 = 6371 * (Real.pi / 6) := by
  have hπ := Real.pi_pos
  have h12 : (0 : ℝ) < Real.pi / 12 := by linarith
  have h12lt : Real.pi / 12 < Real.pi / 2 := by linarith
  have ha : haversine_a 0 0 30 0 = Real.sin (Real.pi / 12) ^ 2 := by
    unfold haversine_a radians
    have e1 : ((30 : ℝ) - 0) * (Real.pi / 180) / 2 = Real.pi / 12 := by ring
    have e2 : ((0 : ℝ) - 0) * (Real.pi / 180) / 2 = 0 := by ring
    rw [e1, e2]
    simp
  have hs : 0 ≤ Real.sin (Real.pi / 12) :=
    Real.sin_nonneg_of_nonneg_of_le_pi h12.le (by linarith)
  have hc : 0 < Real.cos (Real.pi / 12) :=
    Real.cos_pos_of_mem_Ioo ⟨by linarith, h12lt⟩
  have h1 : Real.sqrt (Real.sin (Real.pi / 12) ^ 2) = Real.sin (Real.pi / 12) :=
    Real.sqrt_sq hs
  have h2 : 1 - Real.sin (Real.pi / 12) ^ 2 = Real.cos (Real.pi / 12) ^ 2 := by
    have := Real.sin_sq_add_cos_sq (Real.pi / 12)
    linarith
  have h3 : Real.sqrt (Real.cos (Real.pi / 12) ^ 2) = Real.cos (Real.pi / 12) :=
    Real.sqrt_sq hc.le
  have h4 : atan2 (Real.sin (Real.pi / 12)) (Real.cos (Real.pi / 12)) =
      Real.pi / 12 := by
    unfold atan2
    rw [if_pos hc, ← Real.tan_eq_sin_div_cos,
      Real.arctan_tan (by linarith) h12lt]
  unfold calculate_distance
  rw [ha, h2, h1, h3, h4]
  ring

/-- Claim C4, counterexample: at thirty degrees of latitude the
haversine distance is between 2000 and 5000 km, yet the geospatial band
of `_analyze_geospatial_intelligence` adds 55 with a WARNING alert — not
the claimed 85 with a CRITICAL alert, because the source only awards 85
above 5000 km. -/
theorem C4_counterexample :
    2000 < calculate_distance 0 0 30 0 ∧
    geo_distance_band (calculate_distance 0 0 30 0) =
      (55, [⟨.WARNING, .highSpeedTravel⟩]) := by
  have hd := calculate_distance_thirty_degrees
  have h3 := Real.pi_gt_three
  have h4 := Real.pi_lt_four
  constructor
  · rw [hd]; nlinarith
  · rw [hd]
    unfold geo_distance_band
    rw [if_neg (not_lt.mpr (by nlinarith)), if_neg (not_lt.mpr (by nlinarith)),
      if_pos (by nlinarith)]

/-- Claim C4 as amended to the thresholds the source actually uses
(lines 437..450): above 5000 km the band adds exactly 85 with a CRITICAL
alert, between 2000 (exclusive) and 5000 km it adds exactly 55 with a
WARNING alert, between 500 (exclusive) and 2000 km it adds exactly 30
with an INFO alert, and at 500 km or below it adds nothing. -/
theorem C4_amended :
    ∀ d : ℝ,
      (5000 < d → geo_distance_band d = (85, [⟨.CRITICAL, .impossibleTravel⟩])) ∧
      (2000 < d → d ≤ 5000 →
        geo_distance_band d = (55, [⟨.WARNING, .highSpeedTravel⟩])) ∧
      (500 < d → d ≤ 2000 →
        geo_distance_band d = (30, [⟨.INFO, .newLocation⟩])) ∧
      (d ≤ 500 → geo_distance_band d = (0, [])) := by
  intro d
  refine ⟨?_, ?_, ?_, ?_⟩
  · intro h
    unfold geo_distance_band
    by_cases h10 : (10000 : ℝ) < d
    · rw [if_pos h10]
    · rw [if_neg h10, if_pos h]
  · intro h1 h2
    unfold geo_distance_band
    rw [if_neg (not_lt.mpr (by linarith)), if_neg (not_lt.mpr h2), if_pos h1]
  · intro h1 h2
    unfold geo_distance_band
    rw [if_neg (not_lt.mpr (by linarith)), if_neg (not_lt.mpr (by linarith)),
      if_neg (not_lt.mpr h2), if_pos h1]
  · intro h
    unfold geo_distance_band
    rw [if_neg (not_lt.mpr (by linarith)), if_neg (not_lt.mpr (by linarith)),
      if_neg (not_lt.mpr (by linarith)), if_neg (not_lt.mpr h)]

/-- Witness for the amended claim C4, at distances 6000, 3000, 1000 and
400 km. -/
theorem C4_amended_witness :
    geo_distance_band (6000 : ℝ) = (85, [⟨.CRITICAL, .impossibleTravel⟩]) ∧
    geo_distance_band (3000 : ℝ) = (55, [⟨.WARNING, .highSpeedTravel⟩]) ∧
    geo_distance_band (1000 : ℝ) = (30, [⟨.INFO, .newLocation⟩]) ∧
    geo_distance_band (400 : ℝ) = (0, []) :=
  ⟨(C4_amended 6000).1 (by norm_num),
    (C4_amended 3000).2.1 (by norm_num) (by norm_num),
    (C4_amended 1000).2.2.1 (by norm_num) (by norm_num),
    (C4_amended 400).2.2.2 (by norm_num)⟩

/-- Characterisation of the portal decision chain. -/
lemma decide_status_spec (s c : ℕ) :
    (decide_status s c = .BLOCKED ↔ (s ≥ 80 ∨ c ≥ 2)) ∧
    (decide_status s c = .CHALLENGE ↔
      (¬(s ≥ 80 ∨ c ≥ 2) ∧ (s ≥ 50 ∨ c ≥ 1))) ∧
    (decide_status s c = .APPROVED ↔
      (¬(s ≥ 80 ∨ c ≥ 2) ∧ ¬(s ≥ 50 ∨ c ≥ 1))) := by
  unfold decide_status
  split_ifs with h1 h2 <;> simp_all

/-- Claim C1: for every scoring outcome of the engine, the portal status
is BLOCKED exactly when totalScore is at least 80 or at least two
CRITICAL alerts were raised; otherwise CHALLENGE exactly when totalScore
is at least 50 or at least one CRITICAL alert was raised; otherwise
APPROVED. -/
theorem C1_decision_policy (user : UserProfile) (login : LoginAttempt)
    (st : IntelState) (rd : RandomDraws) (distance : ℚ) :
    (decide_status (comprehensive_risk_analysis user login st rd distance).totalScore
        (critical_count (comprehensive_risk_analysis user login st rd distance).alerts) =
        .BLOCKED ↔
      ((comprehensive_risk_analysis user login st rd distance).totalScore ≥ 80 ∨
        critical_count (comprehensive_risk_analysis user login st rd distance).alerts ≥ 2)) ∧
    (decide_status (comprehensive_risk_analysis user login st rd distance).totalScore
        (critical_count (comprehensive_risk_analysis user login st rd distance).alerts) =
        .CHALLENGE ↔
      (¬((comprehensive_risk_analysis user login st rd distance).totalScore ≥ 80 ∨
          critical_count (comprehensive_risk_analysis user login st rd distance).alerts ≥ 2) ∧
        ((comprehensive_risk_analysis user login st rd distance).totalScore ≥ 50 ∨
          critical_count (comprehensive_risk_analysis user login st rd distance).alerts ≥ 1))) ∧
    (decide_status (comprehensive_risk_analysis user login st rd distance).totalScore
        (critical_count (comprehensive_risk_analysis user login st rd distance).alerts) =
        .APPROVED ↔
      (¬((comprehensive_risk_analysis user login st rd distance).totalScore ≥ 80 ∨
          critical_count (comprehensive_risk_analysis user login st rd distance).alerts ≥ 2) ∧
        ¬((comprehensive_risk_analysis user login st rd distance).totalScore ≥ 50 ∨
          critical_count (comprehensive_risk_analysis user login st rd distance).alerts ≥ 1))) :=
  decide_status_spec _ _

/-- Claim C2: for every (profile, attempt) pair and every provider
state, the returned totalScore is the minimum of 100 and the uncapped
sum of the rule deltas, hence bounded by 100 (nonnegativity is carried
by the ℕ score type, mirroring that every weight is positive and risk
only ever increases), and the per-category breakdown values sum to that
uncapped pre-cap total. -/
theorem C2_aggregation (user : UserProfile) (login : LoginAttempt)
    (st : IntelState) (rd : RandomDraws) (distance : ℚ) :
    (comprehensive_risk_analysis user login st rd distance).totalScore =
      min (comprehensive_risk_analysis user login st rd distance).breakdown.total 100 ∧
    (comprehensive_risk_analysis user login st rd distance).totalScore ≤ 100 ∧
    (comprehensive_risk_analysis user login st rd distance).breakdown.total =
      (analyze_device_intelligence user login st.device_intel).1 +
        (analyze_sim_intelligence user login st.sim_intel rd).1 +
        (analyze_geospatial_intelligence distance rd.location_risk_draw).1 +
        (analyze_behavioral_biometrics user login).1 +
        (analyze_temporal_patterns st.hour st.recent_blocked_count).1 +
        (analyze_network_intelligence rd.vpn_draw).1 +
        (analyze_fraud_patterns st.fraud_query rd.fraud_fallback_draw).1 :=
  ⟨rfl, min_le_right _ _, rfl⟩

/-! Helper lemmas isolating each layer, used to reason about scenarios
in which only one rule fires. -/

lemma device_layer_unknown (user : UserProfile) (login : LoginAttempt)
    (h : login.device_id ≠ user.device_id) :
    analyze_device_intelligence user login none =
      (80, [⟨.CRITICAL, .unknownDevice⟩]) := by
  simp [analyze_device_intelligence, h]

lemma sim_layer_unchanged (user : UserProfile) (login : LoginAttempt)
    (intel : Option SimIntel) (rd : RandomDraws)
    (h : login.sim_id = user.sim_id) :
    analyze_sim_intelligence user login intel rd = (0, []) := by
  simp [analyze_sim_intelligence, h]

lemma geo_layer_zero (distance location_risk_draw : ℚ)
    (hd : distance ≤ 500) (hl : location_risk_draw ≤ 0.7) :
    analyze_geospatial_intelligence distance location_risk_draw = (0, []) := by
  unfold analyze_geospatial_intelligence geo_distance_band
  rw [if_neg (not_lt.mpr (by linarith)), if_neg (not_lt.mpr (by linarith)),
    if_neg (not_lt.mpr (by linarith)), if_neg (not_lt.mpr hd),
    if_neg (not_lt.mpr hl)]
  rfl

lemma behavior_layer_zero (user : UserProfile) (login : LoginAttempt)
    (hbot : detect_bot_behavior login = false)
    (hdiff : |user.keystroke_speed - login.keystroke_speed| +
      |user.mouse_speed - login.mouse_speed| ≤ 50) :
    analyze_behavioral_biometrics user login = (0, []) := by
  unfold analyze_behavioral_biometrics
  rw [hbot]
  simp only [Bool.false_eq_true, if_false]
  rw [if_neg (not_lt.mpr (by linarith)), if_neg (not_lt.mpr (by linarith)),
    if_neg (not_lt.mpr hdiff)]

lemma temporal_layer_zero (hour recent_blocked_count : ℕ)
    (h1 : 5 ≤ hour) (h2 : hour ≤ 23) (h3 : recent_blocked_count ≤ 5) :
    analyze_temporal_patterns hour recent_blocked_count = (0, []) := by
  unfold analyze_temporal_patterns
  rw [if_neg (by omega), if_neg (by omega)]
  rfl

lemma network_layer_zero (vpn_draw : ℚ) (h : 0.12 ≤ vpn_draw) :
    analyze_network_intelligence vpn_draw = (0, []) := by
  unfold analyze_network_intelligence
  rw [if_neg (not_lt.mpr h)]

lemma pattern_layer_zero (q : FraudQueryResult) (draw : ℚ)
    (h : check_fraud_patterns q draw ≤ 0.6) :
    analyze_fraud_patterns q draw = (0, []) := by
  unfold analyze_fraud_patterns
  rw [if_neg (not_lt.mpr (le_trans h (by norm_num))), if_neg (not_lt.mpr h)]

lemma device_layer_unchanged (user : UserProfile) (login : LoginAttempt)
    (intel : Option DeviceIntel) (h : login.device_id = user.device_id) :
    analyze_device_intelligence user login intel = (0, []) := by
  simp [analyze_device_intelligence, h]

lemma network_layer_vpn (vpn_draw : ℚ) (h : vpn_draw < 0.12) :
    analyze_network_intelligence vpn_draw = (40, [⟨.WARNING, .vpnProxy⟩]) := by
  unfold analyze_network_intelligence
  rw [if_pos h]

/-- Evaluates the engine once the seven layer outputs are known. -/
lemma engine_eq (user : UserProfile) (login : LoginAttempt)
    (st : IntelState) (rd : RandomDraws) (distance : ℚ)
    (d1 d2 d3 d4 d5 d6 d7 : ℕ × List Alert)
    (h1 : analyze_device_intelligence user login st.device_intel = d1)
    (h2 : analyze_sim_intelligence user login st.sim_intel rd = d2)
    (h3 : analyze_geospatial_intelligence distance rd.location_risk_draw = d3)
    (h4 : analyze_behavioral_biometrics user login = d4)
    (h5 : analyze_temporal_patterns st.hour st.recent_blocked_count = d5)
    (h6 : analyze_network_intelligence rd.vpn_draw = d6)
    (h7 : analyze_fraud_patterns st.fraud_query rd.fraud_fallback_draw = d7) :
    comprehensive_risk_analysis user login st rd distance =
      { totalScore := min (d1.1 + d2.1 + d3.1 + d4.1 + d5.1 + d6.1 + d7.1) 100
        alerts := d1.2 ++ d2.2 ++ d3.2 ++ d4.2 ++ d5.2 ++ d6.2 ++ d7.2
        breakdown := ⟨d1.1, d2.1, d3.1, d4.1, d5.1, d6.1, d7.1⟩
        ml_confidence :=
          calculate_ml_confidence
            (d1.2 ++ d2.2 ++ d3.2 ++ d4.2 ++ d5.2 ++ d6.2 ++ d7.2) } := by
  unfold comprehensive_risk_analysis
  rw [h1, h2, h3, h4, h5, h6, h7]

/-- Claim C3: the engine is not deterministic — with the profile, the
attempt, the computed distance and the entire stored intelligence state
held fixed, changing only the network-layer random draw
(`np.random.random() < 0.12` at line 509) changes the total score, the
alert list and the breakdown. -/
theorem C3_random_draw_changes_outcome :
    (comprehensive_risk_analysis
        ⟨"U1", "D1", "S1", 0, 0, 170, 200⟩ ⟨"U1", "D1", "S1", 0, 0, 170, 200⟩
        ⟨none, none, .noRow, 0, 12⟩ ⟨0.5, 0.5, 0.5, 0.05, 0.2⟩ 0).totalScore = 40 ∧
    (comprehensive_risk_analysis
        ⟨"U1", "D1", "S1", 0, 0, 170, 200⟩ ⟨"U1", "D1", "S1", 0, 0, 170, 200⟩
        ⟨none, none, .noRow, 0, 12⟩ ⟨0.5, 0.5, 0.5, 0.05, 0.2⟩ 0).alerts =
      [⟨.WARNING, .vpnProxy⟩] ∧
    (comprehensive_risk_analysis
        ⟨"U1", "D1", "S1", 0, 0, 170, 200⟩ ⟨"U1", "D1", "S1", 0, 0, 170, 200⟩
        ⟨none, none, .noRow, 0, 12⟩ ⟨0.5, 0.5, 0.5, 0.5, 0.2⟩ 0).totalScore = 0 ∧
    (comprehensive_risk_analysis
        ⟨"U1", "D1", "S1", 0, 0, 170, 200⟩ ⟨"U1", "D1", "S1", 0, 0, 170, 200⟩
        ⟨none, none, .noRow, 0, 12⟩ ⟨0.5, 0.5, 0.5, 0.5, 0.2⟩ 0).alerts = [] := by
  rw [engine_eq _ _ _ _ _ (0, []) (0, []) (0, []) (0, []) (0, [])
      (40, [⟨.WARNING, .vpnProxy⟩]) (0, [])
      (device_layer_unchanged _ _ _ rfl) (sim_layer_unchanged _ _ _ _ rfl)
      (geo_layer_zero _ _ (by norm_num) (by norm_num))
      (behavior_layer_zero _ _ (by norm_num [detect_bot_behavior]) (by norm_num))
      (temporal_layer_zero _ _ (by norm_num) (by norm_num) (by norm_num))
      (network_layer_vpn _ (by norm_num))
      (pattern_layer_zero _ _ (by norm_num [check_fraud_patterns]))]
  rw [engine_eq _ _ _ _ _ (0, []) (0, []) (0, []) (0, []) (0, []) (0, []) (0, [])
      (device_layer_unchanged _ _ _ rfl) (sim_layer_unchanged _ _ _ _ rfl)
      (geo_layer_zero _ _ (by norm_num) (by norm_num))
      (behavior_layer_zero _ _ (by norm_num [detect_bot_behavior]) (by norm_num))
      (temporal_layer_zero _ _ (by norm_num) (by norm_num) (by norm_num))
      (network_layer_zero _ (by norm_num))
      (pattern_layer_zero _ _ (by norm_num [check_fraud_patterns]))]
  refine ⟨rfl, rfl, rfl, rfl⟩

/-- Claim C5, counterexample: a changed device with Unknown device
intelligence and nothing else firing yields totalScore 80 with exactly
the one CRITICAL unknown-device alert — and the portal decision at
score 80 with one critical alert is BLOCKED (80 ≥ 80), not the claimed
CHALLENGE. -/
theorem C5_counterexample :
    (comprehensive_risk_analysis
        ⟨"U1", "D1", "S1", 0, 0, 170, 200⟩ ⟨"U1", "D2", "S1", 0, 0, 170, 200⟩
        ⟨none, none, .noRow, 0, 12⟩ ⟨0.5, 0.5, 0.5, 0.5, 0.2⟩ 0).totalScore = 80 ∧
    (comprehensive_risk_analysis
        ⟨"U1", "D1", "S1", 0, 0, 170, 200⟩ ⟨"U1", "D2", "S1", 0, 0, 170, 200⟩
        ⟨none, none, .noRow, 0, 12⟩ ⟨0.5, 0.5, 0.5, 0.5, 0.2⟩ 0).alerts =
      [⟨.CRITICAL, .unknownDevice⟩] ∧
    decide_status 80 1 = .BLOCKED ∧ Status.BLOCKED ≠ Status.CHALLENGE := by
  rw [engine_eq _ _ _ _ _ (80, [⟨.CRITICAL, .unknownDevice⟩]) (0, []) (0, [])
      (0, []) (0, []) (0, []) (0, [])
      (device_layer_unknown _ _ (by decide)) (sim_layer_unchanged _ _ _ _ rfl)
      (geo_layer_zero _ _ (by norm_num) (by norm_num))
      (behavior_layer_zero _ _ (by norm_num [detect_bot_behavior]) (by norm_num))
      (temporal_layer_zero _ _ (by norm_num) (by norm_num) (by norm_num))
      (network_layer_zero _ (by norm_num))
      (pattern_layer_zero _ _ (by norm_num [check_fraud_patterns]))]
  refine ⟨rfl, rfl, by decide, by decide⟩

/-- Claim C5 as amended: in the unknown-device scenario with no other
rule firing, the totalScore is 80 with exactly one CRITICAL
(unknown device) alert, and the resulting status is BLOCKED — the
score-80 threshold of the decision logic is reached, so the outcome is
not CHALLENGE. -/
theorem C5_amended (user : UserProfile) (login : LoginAttempt)
    (st : IntelState) (rd : RandomDraws) (distance : ℚ)
    (hdev : login.device_id ≠ user.device_id)
    (hintel : st.device_intel = none)
    (hsim : login.sim_id = user.sim_id)
    (hdist : distance ≤ 500)
    (hloc : rd.location_risk_draw ≤ 0.7)
    (hbot : detect_bot_behavior login = false)
    (hbeh : |user.keystroke_speed - login.keystroke_speed| +
      |user.mouse_speed - login.mouse_speed| ≤ 50)
    (hhour1 : 5 ≤ st.hour) (hhour2 : st.hour ≤ 23)
    (hrecent : st.recent_blocked_count ≤ 5)
    (hvpn : 0.12 ≤ rd.vpn_draw)
    (hfraud : check_fraud_patterns st.fraud_query rd.fraud_fallback_draw ≤ 0.6) :
    (comprehensive_risk_analysis user login st rd distance).totalScore = 80 ∧
    (comprehensive_risk_analysis user login st rd distance).alerts =
      [⟨.CRITICAL, .unknownDevice⟩] ∧
    decide_status (comprehensive_risk_analysis user login st rd distance).totalScore
      (critical_count (comprehensive_risk_analysis user login st rd distance).alerts) =
      .BLOCKED := by
  have h1 : analyze_device_intelligence user login st.device_intel =
      (80, [⟨.CRITICAL, .unknownDevice⟩]) := by
    rw [hintel]; exact device_layer_unknown user login hdev
  have h2 := sim_layer_unchanged user login st.sim_intel rd hsim
  have h3 := geo_layer_zero distance rd.location_risk_draw hdist hloc
  have h4 := behavior_layer_zero user login hbot hbeh
  have h5 := temporal_layer_zero st.hour st.recent_blocked_count hhour1 hhour2 hrecent
  have h6 := network_layer_zero rd.vpn_draw hvpn
  have h7 := pattern_layer_zero st.fraud_query rd.fraud_fallback_draw hfraud
  unfold comprehensive_risk_analysis
  rw [h1, h2, h3, h4, h5, h6, h7]
  refine ⟨rfl, rfl, ?_⟩
  decide

/-- Witness for the amended claim C5, at a concrete unknown-device
scenario. -/
theorem C5_amended_witness :
    (comprehensive_risk_analysis
        ⟨"U1", "D1", "S1", 0, 0, 170, 200⟩ ⟨"U1", "D2", "S1", 0, 0, 170, 200⟩
        ⟨none, none, .noRow, 0, 10⟩ ⟨0.5, 0.5, 0.5, 0.5, 0.2⟩ 0).totalScore = 80 ∧
    (comprehensive_risk_analysis
        ⟨"U1", "D1", "S1", 0, 0, 170, 200⟩ ⟨"U1", "D2", "S1", 0, 0, 170, 200⟩
        ⟨none, none, .noRow, 0, 10⟩ ⟨0.5, 0.5, 0.5, 0.5, 0.2⟩ 0).alerts =
      [⟨.CRITICAL, .unknownDevice⟩] ∧
    decide_status
      (comprehensive_risk_analysis
        ⟨"U1", "D1", "S1", 0, 0, 170, 200⟩ ⟨"U1", "D2", "S1", 0, 0, 170, 200⟩
        ⟨none, none, .noRow, 0, 10⟩ ⟨0.5, 0.5, 0.5, 0.5, 0.2⟩ 0).totalScore
      (critical_count (comprehensive_risk_analysis
        ⟨"U1", "D1", "S1", 0, 0, 170, 200⟩ ⟨"U1", "D2", "S1", 0, 0, 170, 200⟩
        ⟨none, none, .noRow, 0, 10⟩ ⟨0.5, 0.5, 0.5, 0.5, 0.2⟩ 0).alerts) =
      .BLOCKED :=
  C5_amended _ _ _ _ _ (by decide) rfl rfl (by norm_num) (by norm_num)
    (by norm_num [detect_bot_behavior]) (by norm_num) (by norm_num)
    (by norm_num) (by norm_num) (by norm_num)
    (by norm_num [check_fraud_patterns])

/-- Claim C6: a `fraud_patterns` row matching the attempt with
confidence 0.9 contributes nothing — `float(result)` on the fetched
tuple raises TypeError inside the try block, the bare except returns
the 0.0 "safe default", and the banding never fires; a database error
is likewise coerced to 0.0, i.e. to a zero-contribution low-risk
outcome. -/
theorem C6_fraud_pattern_coercion :
    check_fraud_patterns (.row 0.9) 0.2 = 0 ∧
    analyze_fraud_patterns (.row 0.9) 0.2 = (0, []) ∧
    check_fraud_patterns .dbError 0.2 = 0 ∧
    analyze_fraud_patterns .dbError 0.2 = (0, []) :=
  ⟨rfl, pattern_layer_zero _ _ (by norm_num [check_fraud_patterns]), rfl,
    pattern_layer_zero _ _ (by norm_num [check_fraud_patterns])⟩

/-! Sim-layer case lemmas (clone and dual-SIM checks not firing). -/

lemma sim_layer_first_swap_none (user : UserProfile) (login : LoginAttempt)
    (rd : RandomDraws) (hne : login.sim_id ≠ user.sim_id)
    (hclone : rd.clone_draw ≤ 0.8) (hdual : 0.15 ≤ rd.dual_sim_draw) :
    analyze_sim_intelligence user login none rd =
      (65, [⟨.WARNING, .simCardChanged⟩]) := by
  unfold analyze_sim_intelligence
  rw [if_pos hne]
  dsimp only []
  rw [if_neg (not_lt.mpr hclone), if_neg (not_lt.mpr hdual)]
  rfl

lemma sim_layer_first_swap_some (user : UserProfile) (login : LoginAttempt)
    (rd : RandomDraws) (s : SimIntel) (hne : login.sim_id ≠ user.sim_id)
    (hclone : rd.clone_draw ≤ 0.8) (hdual : 0.15 ≤ rd.dual_sim_draw)
    (h1 : 0 < s.swap_frequency) (h2 : s.swap_frequency ≤ 2) :
    analyze_sim_intelligence user login (some s) rd =
      (65, [⟨.WARNING, .previousSimSwap⟩]) := by
  unfold analyze_sim_intelligence
  rw [if_pos hne]
  dsimp only []
  rw [if_neg (not_lt.mpr hclone), if_neg (not_lt.mpr hdual),
    if_neg (not_lt.mpr h2), if_pos h1]
  rfl

lemma sim_layer_swap_zero (user : UserProfile) (login : LoginAttempt)
    (rd : RandomDraws) (s : SimIntel) (hne : login.sim_id ≠ user.sim_id)
    (hclone : rd.clone_draw ≤ 0.8) (hdual : 0.15 ≤ rd.dual_sim_draw)
    (h : s.swap_frequency ≤ 0) :
    analyze_sim_intelligence user login (some s) rd = (0, []) := by
  unfold analyze_sim_intelligence
  rw [if_pos hne]
  dsimp only []
  rw [if_neg (not_lt.mpr hclone), if_neg (not_lt.mpr hdual),
    if_neg (not_lt.mpr (le_trans h (by norm_num))), if_neg (not_lt.mpr h)]
  rfl

/-- Claim C7, counterexample: the attempt SIM differs from the enrolled
one and the stored SIM intelligence reports swap frequency 0, yet the
layer contributes nothing at all — the source only awards the 65-point
first-swap WARNING for `swap_freq > 0` or for an absent record, so a
present record with frequency 0 falls through the chain. -/
theorem C7_counterexample :
    analyze_sim_intelligence ⟨"U1", "D1", "S1", 0, 0, 170, 200⟩
        ⟨"U1", "D1", "S2", 0, 0, 170, 200⟩ (some ⟨0, 0.1, false⟩)
        ⟨0.5, 0.5, 0.5, 0.5, 0.2⟩ = (0, []) ∧
    (analyze_sim_intelligence ⟨"U1", "D1", "S1", 0, 0, 170, 200⟩
        ⟨"U1", "D1", "S2", 0, 0, 170, 200⟩ (some ⟨0, 0.1, false⟩)
        ⟨0.5, 0.5, 0.5, 0.5, 0.2⟩).1 ≠ 65 := by
  have h := sim_layer_swap_zero ⟨"U1", "D1", "S1", 0, 0, 170, 200⟩
    ⟨"U1", "D1", "S2", 0, 0, 170, 200⟩ ⟨0.5, 0.5, 0.5, 0.5, 0.2⟩
    ⟨0, 0.1, false⟩ (by decide) (by norm_num) (by norm_num) (by norm_num)
  exact ⟨h, by rw [h]; decide⟩

/-- Claim C7 as amended: with the SIM changed and neither the clone nor
the dual-SIM check firing, the first-swap rule adds exactly 65 with a
WARNING alert when the SIM intelligence is unknown or reports a swap
frequency in {1, 2}; a present record with swap frequency 0 (or lower)
contributes nothing from this chain. -/
theorem C7_amended (user : UserProfile) (login : LoginAttempt)
    (intel : Option SimIntel) (rd : RandomDraws)
    (hne : login.sim_id ≠ user.sim_id)
    (hclone : rd.clone_draw ≤ 0.8)
    (hdual : 0.15 ≤ rd.dual_sim_draw) :
    (intel = none →
      analyze_sim_intelligence user login intel rd =
        (65, [⟨.WARNING, .simCardChanged⟩])) ∧
    (∀ s, intel = some s → 0 < s.swap_frequency → s.swap_frequency ≤ 2 →
      analyze_sim_intelligence user login intel rd =
        (65, [⟨.WARNING, .previousSimSwap⟩])) ∧
    (∀ s, intel = some s → s.swap_frequency ≤ 0 →
      analyze_sim_intelligence user login intel rd = (0, [])) := by
  refine ⟨?_, ?_, ?_⟩
  · intro h
    subst h
    exact sim_layer_first_swap_none user login rd hne hclone hdual
  · intro s h h1 h2
    subst h
    exact sim_layer_first_swap_some user login rd s hne hclone hdual h1 h2
  · intro s h h0
    subst h
    exact sim_layer_swap_zero user login rd s hne hclone hdual h0

/-- Witness for the amended claim C7: unknown SIM intelligence and a
record with swap frequency 1 both yield the 65-point WARNING. -/
theorem C7_amended_witness :
    analyze_sim_intelligence ⟨"U1", "D1", "S1", 0, 0, 170, 200⟩
        ⟨"U1", "D1", "S2", 0, 0, 170, 200⟩ none
        ⟨0.5, 0.5, 0.5, 0.5, 0.2⟩ = (65, [⟨.WARNING, .simCardChanged⟩]) ∧
    analyze_sim_intelligence ⟨"U1", "D1", "S1", 0, 0, 170, 200⟩
        ⟨"U1", "D1", "S2", 0, 0, 170, 200⟩ (some ⟨1, 0.1, false⟩)
        ⟨0.5, 0.5, 0.5, 0.5, 0.2⟩ = (65, [⟨.WARNING, .previousSimSwap⟩]) :=
  ⟨(C7_amended _ _ _ _ (by decide) (by norm_num) (by norm_num)).1 rfl,
    (C7_amended _ _ _ _ (by decide) (by norm_num) (by norm_num)).2.1
      ⟨1, 0.1, false⟩ rfl (by norm_num) (by norm_num)⟩

/-- Claim C8, counterexample: an attempt whose userId differs from the
enrolled profile is not rejected — the engine scores it like any other
input, returning an ordinary zero-risk Decision and the APPROVED status
instead of the claimed distinct InvalidInput failure. -/
theorem C8_counterexample :
    ("U2" : String) ≠ "U1" ∧
    comprehensive_risk_analysis ⟨"U1", "D1", "S1", 0, 0, 170, 200⟩
        ⟨"U2", "D1", "S1", 0, 0, 170, 200⟩
        ⟨none, none, .noRow, 0, 12⟩ ⟨0.5, 0.5, 0.5, 0.5, 0.2⟩ 0 =
      { totalScore := 0, alerts := [], breakdown := ⟨0, 0, 0, 0, 0, 0, 0⟩,
        ml_confidence := 0.92 } ∧
    decide_status 0 0 = .APPROVED := by
  refine ⟨by decide, ?_, by decide⟩
  rw [engine_eq _ _ _ _ _ (0, []) (0, []) (0, []) (0, []) (0, []) (0, []) (0, [])
      (device_layer_unchanged _ _ _ rfl) (sim_layer_unchanged _ _ _ _ rfl)
      (geo_layer_zero _ _ (by norm_num) (by norm_num))
      (behavior_layer_zero _ _ (by norm_num [detect_bot_behavior]) (by norm_num))
      (temporal_layer_zero _ _ (by norm_num) (by norm_num) (by norm_num))
      (network_layer_zero _ (by norm_num))
      (pattern_layer_zero _ _ (by norm_num [check_fraud_patterns]))]
  rfl

/-- Claim C8 as amended: the entry point is a total function that never
fails — it performs no input validation at all.  In particular the
attempt userId is never read: the Decision is invariant under replacing
it, so a (profile, attempt) pair with mismatched userIds is scored
exactly like a matched one, and fraud-detected inputs surface as a
BLOCKED status, never as an error. -/
theorem C8_amended (user : UserProfile) (login : LoginAttempt)
    (st : IntelState) (rd : RandomDraws) (distance : ℚ) (other_id : String) :
    comprehensive_risk_analysis user { login with user_id := other_id } st rd
        distance =
      comprehensive_risk_analysis user login st rd distance := rfl

/-- Claim C10: the device-analysis layer emits at most one alert, and
when the device changed and intelligence exists the `if/elif` chain
selects exactly one contribution by priority: emulator 95 CRITICAL,
else rooted 65 WARNING, else suspicious history 60 WARNING, else low
trust 60 WARNING, else known change 35 INFO — so a device that is both
an emulator and rooted contributes 95 only, not 160. -/
theorem C10_device_priority (user : UserProfile) (login : LoginAttempt)
    (intel : Option DeviceIntel) :
    (analyze_device_intelligence user login intel).2.length ≤ 1 ∧
    (login.device_id ≠ user.device_id →
      ∀ d, intel = some d →
        (d.is_emulator = true →
          analyze_device_intelligence user login intel =
            (95, [⟨.CRITICAL, .emulatorDetected⟩])) ∧
        (d.is_emulator = false → d.is_rooted = true →
          analyze_device_intelligence user login intel =
            (65, [⟨.WARNING, .rootedDevice⟩])) ∧
        (d.is_emulator = false → d.is_rooted = false →
          3 < d.suspicious_activity_count →
          analyze_device_intelligence user login intel =
            (60, [⟨.WARNING, .suspiciousHistory⟩])) ∧
        (d.is_emulator = false → d.is_rooted = false →
          d.suspicious_activity_count ≤ 3 → d.trust_score < 30 →
          analyze_device_intelligence user login intel =
            (60, [⟨.WARNING, .untrustedDevice⟩])) ∧
        (d.is_emulator = false → d.is_rooted = false →
          d.suspicious_activity_count ≤ 3 → 30 ≤ d.trust_score →
          analyze_device_intelligence user login intel =
            (35, [⟨.INFO, .knownDeviceChange⟩]))) := by
  constructor
  · rcases intel with _ | d <;>
      · unfold analyze_device_intelligence
        dsimp only []
        split_ifs <;> simp
  · intro hne d hd
    subst hd
    unfold analyze_device_intelligence
    rw [if_pos hne]
    dsimp only []
    refine ⟨?_, ?_, ?_, ?_, ?_⟩
    · intro he
      rw [if_pos he]
    · intro he hr
      rw [if_neg (by simp [he]), if_pos hr]
    · intro he hr hs
      rw [if_neg (by simp [he]), if_neg (by simp [hr]), if_pos hs]
    · intro he hr hs ht
      rw [if_neg (by simp [he]), if_neg (by simp [hr]),
        if_neg (not_lt.mpr hs), if_pos ht]
    · intro he hr hs ht
      rw [if_neg (by simp [he]), if_neg (by simp [hr]),
        if_neg (not_lt.mpr hs), if_neg (not_lt.mpr ht)]

/-- Witness for claim C10: a changed device whose intelligence flags it
as both an emulator and rooted contributes 95 with the single emulator
CRITICAL alert. -/
theorem C10_device_priority_witness :
    analyze_device_intelligence ⟨"U1", "D1", "S1", 0, 0, 170, 200⟩
        ⟨"U1", "D2", "S1", 0, 0, 170, 200⟩ (some ⟨25, true, true, 0⟩) =
      (95, [⟨.CRITICAL, .emulatorDetected⟩]) :=
  ((C10_device_priority _ _ _).2 (by decide) ⟨25, true, true, 0⟩ rfl).1 rfl

end BankSecure
